import Mathlib

/-!
Shallow embedding of `otpmanager/manager.py` (the staged lifecycle
orchestrator for OpenTripPlanner / GraphHopper routing engines) and proofs
about it.

Conventions used throughout:
* Python booleans/None returned by `monitor_proc` are modelled by `PyRet`.
* Wall-clock time is an abstract `Nat`; each `readline` call in the monitor
  loop is one element `(t, raw)` of a finite trace, where `t` is the value
  `time.time()` would return during that iteration and `raw` the string
  `readline()` produced (`""` models both "no data yet" and end-of-stream,
  exactly as in CPython, where `readline` on a file that has reached EOF
  returns `""`).
* External effects (prints, sleeps, kills, callbacks, downloads, spawns)
  are recorded in explicit event lists so that theorems can talk about
  which side effects a run performs and in which order.
-/

/-- Python value returned by `monitor_proc`: `None` (a bare `return` or
falling off the end of the function) or a `bool` (the timeout path returns
`False`; a listener's `return_value` in this repository is always a bool). -/
inductive PyRet where
  | pnone : PyRet
  | pbool : Bool → PyRet
deriving DecidableEq, Repr

/-- Truthiness of a `PyRet`, as used by `if (self.start_proc(...))` and the
callers of `build_graph`: `None` and `False` are falsy, `True` is truthy. -/
def PyRet.truthy : PyRet → Bool
  | .pnone => false
  | .pbool b => b

/-- One listener dictionary from `monitor_proc`'s `listeners` argument
(manager.py lines 152-164).  `Option` models presence of the optional keys:
`kill_otp` (key present with that bool value), `return_value` (in this
repository always a bool when present) and `callback` (modelled by an
opaque identifier, `0` standing for the `fp.close` closures used at every
call site). -/
structure Listener where
  substring : String
  kill_otp : Option Bool := none
  return_value : Option Bool := none
  callback : Option Nat := none
deriving DecidableEq, Repr

/-- Python's `sub in line` substring containment test. -/
def substr_in (sub line : String) : Bool :=
  decide (sub.toList <:+: line.toList)

/-- Python's `str.rstrip()`: drop trailing whitespace. -/
def py_rstrip (s : String) : String :=
  String.mk ((s.data.reverse.dropWhile Char.isWhitespace).reverse)

/-- Observable side effects of one `monitor_proc` run. -/
inductive MEv where
  | echo : String → MEv
  | graceSleep : MEv
  | terminate : MEv
  | timeoutKillMsg : MEv
  | pollSleep : MEv
  | callbackEv : Nat → MEv
  | loopExitMsg : MEv
deriving DecidableEq, Repr

/-- Result of running `monitor_proc` against a finite trace of reads:
`ret = some v` means the Python function returned the value `v`;
`ret = none` means the trace was consumed with the loop still running
(the function has not returned after that many `readline` calls).
`proc` is whether `self.proc` is still set (process not yet killed). -/
structure MonRes where
  ret : Option PyRet
  events : List MEv
  proc : Bool
deriving DecidableEq, Repr

/-- Effect of the body guarded by `if (listener["substring"] in line)` in
`monitor_proc` (manager.py lines 190-199): optionally sleep a grace second
and kill the process, then return `return_value` if that key is present;
otherwise run the callback if present; then a bare `return`. -/
def fire_listener (l : Listener) (proc : Bool) : MonRes :=
  let killed := l.kill_otp = some true
  let killEvs : List MEv := if killed then [.graceSleep, .terminate] else []
  let proc' := if killed then false else proc
  match l.return_value with
  | some v => ⟨some (.pbool v), killEvs, proc'⟩
  | none =>
    match l.callback with
    | some id => ⟨some .pnone, killEvs ++ [.callbackEv id], proc'⟩
    | none => ⟨some .pnone, killEvs, proc'⟩

/-- The monitor loop of `JavaManager.monitor_proc` (manager.py lines
177-211).  Arguments mirror the Python ones: `listeners`, `show_output`,
and `timeout` (`none` models `timeout = False`, i.e. no timeout; `some T`
a finite timeout).  `last` is `last_activity`, `proc` whether `self.proc`
is not `None`, and `trace` the remaining reads.  Each iteration reads one
`(t, raw)` pair, rstrips the line, and follows the source exactly: a
non-empty line resets `last_activity` to `t`, is optionally echoed, and is
scanned against the listeners in order (first containment match fires via
`fire_listener`); an empty read checks the timeout (strict
`t - last > T`) and otherwise sleeps 0.1 s and retries. -/
def monitor_proc (listeners : List Listener) (show_output : Bool)
    (timeout : Option Nat) : Nat → Bool → List (Nat × String) → MonRes
  | _last, false, _trace => ⟨some .pnone, [.loopExitMsg], false⟩
  | _last, true, [] => ⟨none, [], true⟩
  | last, true, (t, raw) :: rest =>
    let line := py_rstrip raw
    if 0 < line.length then
      let echoEvs : List MEv := if show_output then [.echo line] else []
      match listeners.find? (fun l => substr_in l.substring line) with
      | some l =>
        let fr := fire_listener l true
        ⟨fr.ret, echoEvs ++ fr.events, fr.proc⟩
      | none =>
        let res := monitor_proc listeners show_output timeout t true rest
        ⟨res.ret, echoEvs ++ res.events, res.proc⟩
    else
      match timeout with
      | some T =>
        if last + T < t then
          ⟨some (.pbool false), [.timeoutKillMsg, .terminate], false⟩
        else
          let res := monitor_proc listeners show_output timeout last true rest
          ⟨res.ret, .pollSleep :: res.events, res.proc⟩
      | none =>
        let res := monitor_proc listeners show_output timeout last true rest
        ⟨res.ret, .pollSleep :: res.events, res.proc⟩

/-- The listener list `OTPManager.build_graph` passes to `monitor_proc`
(manager.py lines 468-481); callback id 0 stands for `fp.close`. -/
def otp_build_listeners : List Listener :=
  [⟨"Exception in thread", some true, some false, some 0⟩,
   ⟨"Graph written", some true, some true, some 0⟩]

/-- The listener list `OTPManager.start_proc` passes to `monitor_proc`
(manager.py lines 530-543). -/
def otp_start_listeners : List Listener :=
  [⟨"Exception in thread", some true, some false, some 0⟩,
   ⟨"Grizzly server running", some false, some true, some 0⟩]

/-- The listener list `GraphHopperManager.build_graph` passes to
`monitor_proc` (manager.py lines 626-639). -/
def gh_build_listeners : List Listener :=
  [⟨"Exception in thread", some true, some false, some 0⟩,
   ⟨"loaded graph", some true, some true, some 0⟩]

/-- The listener list `GraphHopperManager.start_proc` passes to
`monitor_proc` (manager.py lines 681-694). -/
def gh_start_listeners : List Listener :=
  [⟨"Exception in thread", some true, some false, some 0⟩,
   ⟨"Started server at HTTP", some false, some true, some 0⟩]

/-- Loop body of `find_ports` (manager.py lines 75-81), with the mutable
`results` accumulator made explicit.  `avail` is the oracle for
`port_available(port)` (manager.py lines 46-62: a TCP connect to
`localhost:port` that failed, i.e. the port is free).  Each port is
appended when available, and the list is returned as soon as its length
equals `num_ports`; a `none` return models the Python `return False` once
the range is exhausted. -/
def find_ports_aux (avail : Nat → Bool) (num_ports : Nat) :
    List Nat → List Nat → Option (List Nat)
  | [], _results => none
  | port :: rest, results =>
    let results' := if avail port then results ++ [port] else results
    if results'.length = num_ports then some results'
    else find_ports_aux avail num_ports rest results'

/-- `find_ports(port_range, num_ports)` (manager.py lines 64-81). -/
def find_ports (avail : Nat → Bool) (port_range : List Nat)
    (num_ports : Nat) : Option (List Nat) :=
  find_ports_aux avail num_ports port_range []

/-- Modelled from the spec's words (for comparison with `find_ports`):
the first `count` free ports of the range in ascending order, or `none`
when fewer than `count` ports of the range are free. -/
def spec_first_free_ports (avail : Nat → Bool) (port_range : List Nat)
    (count : Nat) : Option (List Nat) :=
  let free := port_range.filter avail
  if count ≤ free.length then some (free.take count) else none

/-- A Python exception surfacing from `start_proc`. -/
inductive PyErr where
  | nameError : PyErr
  | indexError : PyErr
deriving DecidableEq, Repr

/-- The value stored in `self.port` by `start_proc`: either an int (the
dynamic-allocation branch stores `ports[0]`) or, on the
`dynamically_allocate_ports = False` branch, the one-element tuple built
by the trailing comma in `self.port = port,` (manager.py lines 511 and
669). -/
inductive PyV where
  | int : Nat → PyV
  | tup1 : Nat → PyV
deriving DecidableEq, Repr

/-- Python `str(v)`: `str(8080) = "8080"` but `str((8080,)) = "(8080,)"`. -/
def py_str : PyV → String
  | .int n => toString n
  | .tup1 n => "(" ++ toString n ++ ",)"

/-- Python `"%d" % v`: an int formats as its digits, and a one-element
tuple is unpacked by the `%` operator, so `"%d" % (8080,) = "8080"`. -/
def py_fmt_d : PyV → String
  | .int n => toString n
  | .tup1 n => toString n

/-- Python truthiness of the optional `port` argument of
`build_gh_startup_args`: `None` and `0` are falsy; a non-empty tuple is
always truthy. -/
def py_truthy_port : Option PyV → Bool
  | none => false
  | some (.int n) => n != 0
  | some (.tup1 _) => true

instance {ε α : Type} [DecidableEq ε] [DecidableEq α] :
    DecidableEq (Except ε α) := fun x y =>
  match x, y with
  | .ok a, .ok b =>
    if h : a = b then .isTrue (by rw [h]) else .isFalse (by simp [h])
  | .error a, .error b =>
    if h : a = b then .isTrue (by rw [h]) else .isFalse (by simp [h])
  | .ok _, .error _ => .isFalse (by simp)
  | .error _, .ok _ => .isFalse (by simp)

/-- Result of one `start_proc` call.  `result` is `.error e` when the call
raises, otherwise `.ok r` where `r` is what the Python function returned:
`some v` an actual return value, `none` when the call is still blocked in
the monitor loop after the whole read trace (it has not returned).
`port` is the value assigned to `self.port` (if that assignment was
reached) and `spawned` the argv handed to `subprocess.Popen` (if the spawn
was reached). -/
structure StartRes where
  result : Except PyErr (Option PyRet)
  port : Option PyV
  spawned : Option (List String)
deriving DecidableEq, Repr

/-- `OTPManager.start_proc` (manager.py lines 483-543).  `avail` is the
port-availability oracle, `trace` the server's output reads, `t0` the
time at which the monitor starts.  On the dynamic branch the argv is
built from `ports[0]` and `ports[1]` and the monitor runs with
`timeout = False`; on the static branch `self.port` receives the tuple
`(port,)` and building the argv evaluates `str(ports[1])` with `ports`
never bound, raising `NameError` before any spawn. -/
def otp_start_proc (avail : Nat → Bool) (port_range : List Nat)
    (port : Nat) (dyn : Bool) (jar_path graph_name : String)
    (t0 : Nat) (trace : List (Nat × String)) : StartRes :=
  if dyn then
    match find_ports avail port_range 2 with
    | some (p0 :: p1 :: _) =>
      let selfPort := PyV.int p0
      let cmd := ["java", "-jar", jar_path, "--basePath", ".",
                  "--router", graph_name, "--port", py_str selfPort,
                  "--securePort", toString p1, "--inMemory"]
      ⟨.ok (monitor_proc otp_start_listeners true none t0 true trace).ret,
       some selfPort, some cmd⟩
    | some [p0] => ⟨.error .indexError, some (.int p0), none⟩
    | some [] => ⟨.ok (some (.pbool false)), none, none⟩
    | none => ⟨.ok (some (.pbool false)), none, none⟩
  else
    ⟨.error .nameError, some (.tup1 port), none⟩

/-- `GraphHopperManager.build_gh_startup_args` (manager.py lines 594-604).
`jarfile` stands for the first `glob` hit under the jar directory and
`osmfile` for the first `.osm` glob hit in the graph subdirectory. -/
def build_gh_startup_args (jarfile jar_path osmfile : String)
    (port : Option PyV) : List String :=
  let args := ["java", "-jar", jarfile,
               "jetty.resourcebase=" ++ jar_path ++ "/webapp",
               "config=" ++ jar_path ++ "/config-example.properties",
               "datareader.file=" ++ osmfile,
               "graph.flag_encoders=car,foot,bike"]
  match port with
  | some v => if py_truthy_port (some v) then
                args ++ ["jetty.port=" ++ py_fmt_d v]
              else args
  | none => args

/-- `GraphHopperManager.start_proc` (manager.py lines 641-694).  Unlike
the OTP variant, the argv is built by `build_gh_startup_args(self.port)`
and never mentions `ports`, so the static branch does not raise: the
one-element tuple flows into `"jetty.port=%d" % port`, which the `%`
operator formats as the tuple's single element. -/
def gh_start_proc (avail : Nat → Bool) (port_range : List Nat)
    (port : Nat) (dyn : Bool) (jarfile jar_path osmfile : String)
    (t0 : Nat) (trace : List (Nat × String)) : StartRes :=
  if dyn then
    match find_ports avail port_range 2 with
    | some (p0 :: _) =>
      let selfPort := PyV.int p0
      let cmd := build_gh_startup_args jarfile jar_path osmfile (some selfPort)
      ⟨.ok (monitor_proc gh_start_listeners true none t0 true trace).ret,
       some selfPort, some cmd⟩
    | some [] => ⟨.ok (some (.pbool false)), none, none⟩
    | none => ⟨.ok (some (.pbool false)), none, none⟩
  else
    let selfPort := PyV.tup1 port
    let cmd := build_gh_startup_args jarfile jar_path osmfile (some selfPort)
    ⟨.ok (monitor_proc gh_start_listeners true none t0 true trace).ret,
     some selfPort, some cmd⟩

/-- The persisted stage record `otpmanager.json` (manager.py lines
288-293): for each stage, `true` models a recorded timestamp (truthy in
the Python `if (not self.graph_config[...])` tests) and `false` the
literal `False` stored on first run. -/
structure GraphConfig where
  osm_download_time : Bool
  gtfs_download_time : Bool
  otp_graph_build_time : Bool
  gh_graph_build_time : Bool
deriving DecidableEq, Repr

/-- Observable side effects of the orchestrator pipeline:
stage invocations, persisted-record writes (`write_config`, with the
record content written), the `atexit` cleanup registration, the graph
build subprocess spawn, and each server start attempt. -/
inductive OEv where
  | downloadOSM : OEv
  | downloadGTFS : OEv
  | downloadJar : OEv
  | writeConfig : GraphConfig → OEv
  | registerCleanup : OEv
  | buildSpawn : OEv
  | startAttempt : Nat → OEv
deriving DecidableEq, Repr

/-- The GTFS half of `JavaManager.setup_download_data` (manager.py lines
323-341): invoked only when the `gtfs_download_time` marker is unset;
on success the marker is set and `write_config` runs; on failure the run
continues unless `require_gtfs` is set.  `evs` is the event prefix
accumulated by the OSM half. -/
def setup_download_gtfs (cfg : GraphConfig) (gtfs_ok require_gtfs : Bool)
    (evs : List OEv) : Bool × GraphConfig × List OEv :=
  if !cfg.gtfs_download_time then
    if gtfs_ok then
      let cfg' := { cfg with gtfs_download_time := true }
      (true, cfg', evs ++ [.downloadGTFS, .writeConfig cfg'])
    else if require_gtfs then (false, cfg, evs ++ [.downloadGTFS])
    else (true, cfg, evs ++ [.downloadGTFS])
  else (true, cfg, evs)

/-- `JavaManager.setup_download_data` (manager.py lines 297-341).
`osm_ok` and `gtfs_ok` are the outcomes of the external download
collaborators (`download_osm` / `download_gtfs`).  The OSM stage runs
only when its marker is unset; on success the marker is set and the
record is persisted (a `writeConfig` event) before the GTFS stage, and
an OSM failure aborts with `False`. -/
def setup_download_data (cfg : GraphConfig)
    (osm_ok gtfs_ok require_gtfs : Bool) : Bool × GraphConfig × List OEv :=
  if !cfg.osm_download_time then
    if osm_ok then
      let cfg' := { cfg with osm_download_time := true }
      setup_download_gtfs cfg' gtfs_ok require_gtfs
        [.downloadOSM, .writeConfig cfg']
    else (false, cfg, [.downloadOSM])
  else setup_download_gtfs cfg gtfs_ok require_gtfs []

/-- `OTPManager.setup_routing_engine` (manager.py lines 402-442),
embedded exactly as written: after the jar-download section (lines
413-425) the function executes the unconditional `return False` at line
427, so the graph-build section at lines 429-442 is unreachable and no
branch returns `True`. -/
def otp_setup_routing_engine (cfg : GraphConfig)
    (jar_present auto_download_jar jar_dl_ok : Bool) :
    Bool × GraphConfig × List OEv :=
  if !jar_present then
    if auto_download_jar then
      if jar_dl_ok then (false, cfg, [.downloadJar])
      else (false, cfg, [.downloadJar])
    else (false, cfg, [])
  else (false, cfg, [])

/-- The graph-build stage shared by `GraphHopperManager.setup_routing_engine`
(manager.py lines 579-592): run `build_graph` only when the
`gh_graph_build_time` marker is unset, persist the marker on success,
fail on build failure, and skip entirely when already marked. -/
def gh_build_stage (cfg : GraphConfig) (build_ok : Bool) (evs : List OEv) :
    Bool × GraphConfig × List OEv :=
  if !cfg.gh_graph_build_time then
    if build_ok then
      let cfg' := { cfg with gh_graph_build_time := true }
      (true, cfg', evs ++ [.buildSpawn, .writeConfig cfg'])
    else (false, cfg, evs ++ [.buildSpawn])
  else (true, cfg, evs)

/-- `GraphHopperManager.setup_routing_engine` (manager.py lines 547-592):
jar download/unpack when missing, then the graph-build stage.
`build_ok` is the truthiness of `self.build_graph()` (a spawn of the
build command monitored against `gh_build_listeners`). -/
def gh_setup_routing_engine (cfg : GraphConfig)
    (jar_present auto_download_jar jar_dl_ok build_ok : Bool) :
    Bool × GraphConfig × List OEv :=
  if !jar_present then
    if auto_download_jar then
      if jar_dl_ok then gh_build_stage cfg build_ok [.downloadJar]
      else (false, cfg, [.downloadJar])
    else (false, cfg, [])
  else gh_build_stage cfg build_ok []

/-- Overall outcome of `JavaManager.start`: a returned bool, an
uncaught exception, or a hang (a `start_proc` call that never returns
within its read trace). -/
inductive RunOut where
  | ret : Bool → RunOut
  | raised : PyErr → RunOut
  | hangs : RunOut
deriving DecidableEq, Repr

/-- The retry loop of `JavaManager.start` (manager.py lines 390-398):
`for i in range(3)` with an early `return True` as soon as one
`start_proc` call is truthy.  `sp k` is the result of the `k`-th
`start_proc` call; the second component lists the indices of the
attempts actually made, in order. -/
def start_loop (sp : Nat → StartRes) : Nat → Nat → RunOut × List Nat
  | 0, _k => (.ret false, [])
  | n + 1, k =>
    match (sp k).result with
    | .error e => (.raised e, [k])
    | .ok none => (.hangs, [k])
    | .ok (some v) =>
      if v.truthy then (.ret true, [k])
      else ((start_loop sp n (k + 1)).1, k :: (start_loop sp n (k + 1)).2)

/-- `JavaManager.start` (manager.py lines 343-398) with the
engine-specific stage (`setup_routing_engine`) and the per-attempt
`start_proc` results passed in, mirroring Python's dynamic dispatch:
`setup_graph_init` (always `True`, having loaded `cfg`), then
`setup_download_data`, then the `atexit` cleanup registration, then
`setup_routing_engine`, then up to three `start_proc` attempts. -/
def java_start (cfg : GraphConfig) (osm_ok gtfs_ok require_gtfs : Bool)
    (setup_re : GraphConfig → Bool × GraphConfig × List OEv)
    (sp : Nat → StartRes) : RunOut × GraphConfig × List OEv :=
  let s1 := setup_download_data cfg osm_ok gtfs_ok require_gtfs
  if !s1.1 then (.ret false, s1.2.1, s1.2.2)
  else
    let evs1 := s1.2.2 ++ [.registerCleanup]
    let s2 := setup_re s1.2.1
    if !s2.1 then (.ret false, s2.2.1, evs1 ++ s2.2.2)
    else
      let lp := start_loop sp 3 0
      (lp.1, s2.2.1, evs1 ++ s2.2.2 ++ lp.2.map .startAttempt)

/-- `OTPManager.start`: `JavaManager.start` with OTP's
`setup_routing_engine`. -/
def otp_start (cfg : GraphConfig)
    (osm_ok gtfs_ok require_gtfs jar_present auto_download_jar jar_dl_ok :
      Bool) (sp : Nat → StartRes) : RunOut × GraphConfig × List OEv :=
  java_start cfg osm_ok gtfs_ok require_gtfs
    (fun c => otp_setup_routing_engine c jar_present auto_download_jar
      jar_dl_ok) sp

/-- `GraphHopperManager.start`: `JavaManager.start` with GraphHopper's
`setup_routing_engine`. -/
def gh_start (cfg : GraphConfig)
    (osm_ok gtfs_ok require_gtfs jar_present auto_download_jar jar_dl_ok
      build_ok : Bool) (sp : Nat → StartRes) :
    RunOut × GraphConfig × List OEv :=
  java_start cfg osm_ok gtfs_ok require_gtfs
    (fun c => gh_setup_routing_engine c jar_present auto_download_jar
      jar_dl_ok build_ok) sp

/-- On-disk contents of the stage record file over the course of one
`JavaManager.write_config` call (manager.py lines 140-142), in order:
the previous record, then the empty file left by `open(path, "w")`
truncating it, then the newly dumped serialization.  There is no
temporary file and no rename. -/
def write_config_disk_states (oldRec newRec : String) : List String :=
  [oldRec, "", newRec]

/-- Atomicity predicate from the spec's words: at every instant during
the persist operation the file holds either the previous complete record
or the new complete record. -/
def atomic_persist (oldRec newRec : String) (states : List String) : Prop :=
  ∀ s ∈ states, s = oldRec ∨ s = newRec

/-- The `k`-th server start attempt made by the retry loop of
`JavaManager.start` when the manager is a `GraphHopperManager` with
dynamic port allocation: a fresh `start_proc` call, which re-runs
`find_ports` against attempt `k`'s port availability `avail k` and
re-spawns the server, monitoring attempt `k`'s output `tr k`. -/
def gh_attempts (avail : Nat → Nat → Bool) (rng : List Nat) (port : Nat)
    (jarfile jar_path osmfile : String) (t0 : Nat → Nat)
    (tr : Nat → List (Nat × String)) (k : Nat) : StartRes :=
  gh_start_proc (avail k) rng port true jarfile jar_path osmfile (t0 k)
    (tr k)

lemma find_first_of_split (pre post : List Listener) (l : Listener)
    (line : String)
    (hpre : ∀ x ∈ pre, substr_in x.substring line = false)
    (hl : substr_in l.substring line = true) :
    (pre ++ l :: post).find? (fun x => substr_in x.substring line) = some l := by
  rw [List.find?_append]
  have h1 : pre.find? (fun x => substr_in x.substring line) = none :=
    List.find?_eq_none.mpr (fun x hx => by simp [hpre x hx])
  rw [h1, Option.none_or,
    List.find?_cons_of_pos (p := fun x => substr_in x.substring line) post hl]

/-- C2: for every listener list and every non-empty processed line, at most
one listener fires: the first listener in list order whose substring is
contained in the line determines the value returned (its `return_value`,
when present), the value is returned immediately, and neither the
listeners after it nor the remaining reads (`rest`) influence the result,
which is why the result below is independent of `post` and `rest`. -/
theorem monitor_proc_first_match_wins
    (pre post : List Listener) (l : Listener) (v : Bool)
    (show_output : Bool) (timeout : Option Nat) (last t : Nat)
    (raw : String) (rest : List (Nat × String))
    (hne : 0 < (py_rstrip raw).length)
    (hpre : ∀ x ∈ pre, substr_in x.substring (py_rstrip raw) = false)
    (hl : substr_in l.substring (py_rstrip raw) = true)
    (hv : l.return_value = some v) :
    monitor_proc (pre ++ l :: post) show_output timeout last true
        ((t, raw) :: rest)
      = ⟨some (.pbool v),
         (if show_output then [.echo (py_rstrip raw)] else [])
           ++ (if l.kill_otp = some true then [.graceSleep, .terminate]
               else []),
         if l.kill_otp = some true then false else true⟩ := by
  have hfind := find_first_of_split pre post l (py_rstrip raw) hpre hl
  simp [monitor_proc, hne, hfind, fire_listener, hv]

/-- Witness for C2, the spec's own example: with listeners
`[{"ERROR" -> False}, {"OK" -> True}]` and a line containing both
substrings, the monitor returns `False` (first match wins). -/
theorem monitor_proc_first_match_wins_witness :
    monitor_proc [⟨"ERROR", some true, some false, some 0⟩,
                  ⟨"OK", none, some true, some 0⟩] true (some 600) 0 true
        [(1, "line with ERROR and OK")]
      = ⟨some (.pbool false),
         [.echo "line with ERROR and OK", .graceSleep, .terminate],
         false⟩ := by
  have h := monitor_proc_first_match_wins []
    [⟨"OK", none, some true, some 0⟩] ⟨"ERROR", some true, some false, some 0⟩
    false true (some 600) 0 1 "line with ERROR and OK" []
    (by decide) (by decide) (by decide) (by decide)
  simpa using h

/-- C3: with a finite timeout `T`, inactivity kills the process and makes
the monitor return (the Python function's timeout return value `False`,
after printing the kill message and terminating the process), and the
inactivity timer is reset only by non-empty lines.  First conjunct: after
any number of empty reads at times within the window measured from
`last0` (empty reads do not reset the timer), the first read past the
window returns immediately with the process terminated.  Second conjunct:
a non-empty (non-matching) line at time `t1` resets the baseline of the
rest of the run to `t1`. -/
theorem monitor_proc_inactivity_timeout
    (listeners : List Listener) (show_output : Bool) (T last0 t : Nat)
    (pre : List (Nat × String)) (raw : String) (rest : List (Nat × String))
    (hpre : ∀ p ∈ pre, (py_rstrip p.2).length = 0 ∧ p.1 ≤ last0 + T)
    (hraw : (py_rstrip raw).length = 0)
    (ht : last0 + T < t) :
    monitor_proc listeners show_output (some T) last0 true
        (pre ++ (t, raw) :: rest)
      = ⟨some (.pbool false),
         List.replicate pre.length .pollSleep
           ++ [.timeoutKillMsg, .terminate],
         false⟩
    ∧ ∀ t1 raw1 tr, 0 < (py_rstrip raw1).length →
        listeners.find? (fun x => substr_in x.substring (py_rstrip raw1))
          = none →
        monitor_proc listeners show_output (some T) last0 true
            ((t1, raw1) :: tr)
          = ⟨(monitor_proc listeners show_output (some T) t1 true tr).ret,
             (if show_output then [.echo (py_rstrip raw1)] else [])
               ++ (monitor_proc listeners show_output (some T) t1
                     true tr).events,
             (monitor_proc listeners show_output (some T) t1
                true tr).proc⟩ := by
  constructor
  · induction pre with
    | nil =>
      have hne : ¬ 0 < (py_rstrip raw).length := by omega
      simp [monitor_proc, hne, ht]
    | cons p pre ih =>
      obtain ⟨tp, rawp⟩ := p
      obtain ⟨h1a, h1b⟩ : (py_rstrip rawp).length = 0 ∧ tp ≤ last0 + T :=
        hpre (tp, rawp) (by simp)
      have hne : ¬ 0 < (py_rstrip rawp).length := by omega
      have htp : ¬ last0 + T < tp := by omega
      have ih' := ih (fun q hq => hpre q (by simp [hq]))
      simp [monitor_proc, hne, htp, ih', List.replicate_succ]
  · intro t1 raw1 tr h1 hfind
    simp [monitor_proc, h1, hfind]

/-- Witness for C3: with `T = 5` and the monitor started at time `0`,
empty reads at times 3 and 4 do not reset the timer, and the empty read
at time 6 kills the process and returns `False`; a non-empty
non-matching line at time 2 re-baselines the run to time 2. -/
theorem monitor_proc_inactivity_timeout_witness :
    monitor_proc [] true (some 5) 0 true [(3, ""), (4, " "), (6, "")]
      = ⟨some (.pbool false),
         [.pollSleep, .pollSleep, .timeoutKillMsg, .terminate], false⟩
    ∧ monitor_proc [] true (some 5) 0 true [(2, "hello"), (9, "")]
      = ⟨(monitor_proc [] true (some 5) 2 true [(9, "")]).ret,
         [.echo "hello"]
           ++ (monitor_proc [] true (some 5) 2 true [(9, "")]).events,
         (monitor_proc [] true (some 5) 2 true [(9, "")]).proc⟩ := by
  have h := monitor_proc_inactivity_timeout [] true 5 0 6
    [(3, ""), (4, " ")] "" [] (by decide) (by decide) (by decide)
  have h2 := h.2 2 "hello" [(9, "")] (by decide) (by decide)
  have e : py_rstrip "hello" = "hello" := by decide
  exact ⟨by simpa using h.1, by simpa [e] using h2⟩

/-- C4 (refuted by the code): with the timeout disabled
(`timeout = False`, as `start_proc` passes it), a supervised process that
exits with no further output leaves `readline` returning `""` forever
while `self.proc` is never cleared, so the loop never produces an
outcome: after any finite number of empty reads the monitor has still
not returned and the process handle is still set.  The spec instead
requires this case to terminate with a distinguishable outcome. -/
theorem monitor_proc_eof_no_timeout_never_returns
    (listeners : List Listener) (show_output : Bool) (last : Nat)
    (trace : List (Nat × String))
    (h : ∀ p ∈ trace, (py_rstrip p.2).length = 0) :
    (monitor_proc listeners show_output none last true trace).ret = none
    ∧ (monitor_proc listeners show_output none last true trace).proc
        = true := by
  induction trace generalizing last with
  | nil => simp [monitor_proc]
  | cons p rest ih =>
    obtain ⟨t, raw⟩ := p
    have hz : (py_rstrip raw).length = 0 := h (t, raw) (by simp)
    have hne : ¬ 0 < (py_rstrip raw).length := by omega
    have ih' := ih last (fun q hq => h q (by simp [hq]))
    simp [monitor_proc, hne, ih'.1, ih'.2]

/-- Witness for C4: one million consecutive empty reads (modelled here by
reads at times 3, 7 and 1000000) leave the monitor still looping with the
dead process's handle still set. -/
theorem monitor_proc_eof_no_timeout_never_returns_witness :
    (monitor_proc otp_start_listeners true none 0 true
        [(3, ""), (7, ""), (1000000, "")]).ret = none
    ∧ (monitor_proc otp_start_listeners true none 0 true
        [(3, ""), (7, ""), (1000000, "")]).proc = true :=
  monitor_proc_eof_no_timeout_never_returns otp_start_listeners true 0
    [(3, ""), (7, ""), (1000000, "")] (by decide)

/-- C10: whenever every listener carries a `return_value` key — as all
eight build/start listeners in this repository do — the `callback` branch
of `monitor_proc` is unreachable: the matched listener's value is
returned before the callback check, so no run ever emits a callback
event (in the code, the `fp.close` attached to every rule never runs). -/
theorem monitor_proc_callback_never_fires
    (listeners : List Listener) (show_output : Bool) (timeout : Option Nat)
    (last : Nat) (proc : Bool) (trace : List (Nat × String)) (id : Nat)
    (h : ∀ l ∈ listeners, l.return_value.isSome = true) :
    MEv.callbackEv id
      ∉ (monitor_proc listeners show_output timeout last proc trace).events
      := by
  induction trace generalizing last proc with
  | nil => cases proc <;> simp [monitor_proc]
  | cons p rest ih =>
    cases proc
    · simp [monitor_proc]
    · obtain ⟨t, raw⟩ := p
      by_cases hline : 0 < (py_rstrip raw).length
      · cases hfind : listeners.find?
            (fun x => substr_in x.substring (py_rstrip raw)) with
        | none =>
          have ih' := ih t true
          simp only [monitor_proc, hline, if_true, hfind]
          simp only [List.mem_append, not_or]
          exact ⟨by split <;> simp, by simpa using ih'⟩
        | some l =>
          obtain ⟨v, hv⟩ := Option.isSome_iff_exists.mp
            (h l (List.mem_of_find?_eq_some hfind))
          simp only [monitor_proc, hline, if_true, hfind, fire_listener, hv]
          simp only [List.mem_append, not_or]
          exact ⟨by split <;> simp, by split <;> simp⟩
      · cases timeout with
        | none =>
          have ih' := ih last true
          simp only [monitor_proc, hline, if_false]
          simpa using ih'
        | some T =>
          by_cases htime : last + T < t
          · simp [monitor_proc, hline, htime]
          · have ih' := ih last true
            simp only [monitor_proc, hline, if_false, htime]
            simpa using ih'

lemma find_ports_aux_spec (avail : Nat → Bool) (num : Nat) :
    ∀ (rng : List Nat) (acc : List Nat), acc.length < num →
    find_ports_aux avail num rng acc
      = if num ≤ acc.length + (rng.filter avail).length
        then some (acc ++ (rng.filter avail).take (num - acc.length))
        else none := by
  intro rng
  induction rng with
  | nil =>
    intro acc hacc
    simp only [find_ports_aux, List.filter_nil, List.length_nil,
      Nat.add_zero]
    rw [if_neg (by omega)]
  | cons p rest ih =>
    intro acc hacc
    by_cases hp : avail p
    · simp only [find_ports_aux, hp, if_true,
        List.filter_cons_of_pos hp]
      by_cases heq : (acc ++ [p]).length = num
      · rw [if_pos heq]
        have hlen : acc.length + 1 = num := by simpa using heq
        have h1 : num - acc.length = 1 := by omega
        rw [if_pos (by simp; omega), h1]
        simp
      · have hlt : (acc ++ [p]).length < num := by
          simp only [List.length_append, List.length_cons,
            List.length_nil] at heq ⊢
          omega
        rw [if_neg heq, ih _ hlt]
        have h2 : acc.length + 1 ≤ num := by
          simpa using Nat.le_of_lt hlt
        obtain ⟨m, hm⟩ : ∃ m, num - acc.length = m + 1 :=
          ⟨num - acc.length - 1, by omega⟩
        have hm' : num - (acc ++ [p]).length = m := by simp; omega
        rw [hm']
        by_cases hc : num ≤ (acc ++ [p]).length + (rest.filter avail).length
        · rw [if_pos hc, if_pos (by simp at hc ⊢; omega), hm,
            List.take_succ_cons]
          simp
        · rw [if_neg hc, if_neg (by simp at hc ⊢; omega)]
    · have hp' : avail p = false := by simpa using hp
      simp only [find_ports_aux, hp', Bool.false_eq_true, if_false,
        List.filter_cons_of_neg hp]
      rw [if_neg (by omega)]
      exact ih _ hacc

/-- C6 (amended to `count ≥ 1`): for every port range and every requested
count of at least one, `find_ports` scans the range in ascending order,
classifying each port with the `port_available` connect check, and
returns exactly the first `count` free ports of the range as soon as the
`count`-th one is collected, or `none` (Python `False`) when the range is
exhausted with fewer than `count` free ports — i.e. it agrees with the
spec-side function `spec_first_free_ports`.  (For `count = 0` the two
disagree: see the counterexample theorem.) -/
theorem find_ports_spec (avail : Nat → Bool) (port_range : List Nat)
    (count : Nat) (h : 1 ≤ count) :
    find_ports avail port_range count
      = spec_first_free_ports avail port_range count := by
  unfold find_ports spec_first_free_ports
  rw [find_ports_aux_spec avail count port_range [] (by simpa using h)]
  simp

/-- Witness for C6, on the spec's own examples: with exactly ports 8105
and 8107 free in the range 8100-8110, requesting 2 ports yields
`[8105, 8107]` in ascending order and requesting 3 yields `False`. -/
theorem find_ports_spec_witness :
    1 ≤ 2
    ∧ find_ports (fun p => p == 8105 || p == 8107) (List.range' 8100 11) 2
        = spec_first_free_ports (fun p => p == 8105 || p == 8107)
            (List.range' 8100 11) 2
    ∧ find_ports (fun p => p == 8105 || p == 8107) (List.range' 8100 11) 2
        = some [8105, 8107]
    ∧ find_ports (fun p => p == 8105 || p == 8107) (List.range' 8100 11) 3
        = none :=
  ⟨by decide,
   find_ports_spec (fun p => p == 8105 || p == 8107) (List.range' 8100 11)
     2 (by decide),
   by decide, by decide⟩

/-- C6 counterexample: requesting `count = 0` ports from an empty range
returns `False` (the code checks `len(results) == num_ports` only after
examining a port, so an exhausted range wins), while the claimed contract
— return the first `count` free ports as soon as they are collected,
`NotFound` only when the range is exhausted with *fewer* than `count`
free ports — yields the empty allocation. -/
theorem find_ports_count_zero_counterexample :
    find_ports (fun _ => true) [] 0 = none
    ∧ spec_first_free_ports (fun _ => true) [] 0 = some [] := by decide

/-- Witness for C10: running the monitor on `OTPManager.build_graph`'s
listener list over a trace whose line matches the success rule returns
`True` without ever invoking the `fp.close` callback (id 0). -/
theorem monitor_proc_callback_never_fires_witness :
    MEv.callbackEv 0
      ∉ (monitor_proc otp_build_listeners true (some 600) 0 true
          [(1, "Graph written to file")]).events :=
  monitor_proc_callback_never_fires otp_build_listeners true (some 600) 0
    true [(1, "Graph written to file")] 0 (by decide)

lemma start_loop_length_le (sp : Nat → StartRes) :
    ∀ n k, (start_loop sp n k).2.length ≤ n
      ∧ ∀ j ∈ (start_loop sp n k).2, j < k + n := by
  intro n
  induction n with
  | zero => intro k; simp [start_loop]
  | succ n ih =>
    intro k
    simp only [start_loop]
    cases hres : (sp k).result with
    | error e => simp
    | ok o =>
      cases o with
      | none => simp
      | some v =>
        by_cases hv : v.truthy
        · simp [hv]
        · simp only [hv, Bool.false_eq_true, if_false, List.length_cons,
            List.mem_cons]
          refine ⟨by have := (ih (k + 1)).1; omega, ?_⟩
          rintro j (rfl | hj)
          · omega
          · have := (ih (k + 1)).2 j hj; omega

lemma start_loop_all_fail (sp : Nat → StartRes) :
    ∀ n k, (∀ j, k ≤ j → j < k + n →
      ∃ v, (sp j).result = .ok (some v) ∧ v.truthy = false) →
    start_loop sp n k = (.ret false, List.range' k n) := by
  intro n
  induction n with
  | zero => intro k _h; simp [start_loop, List.range']
  | succ n ih =>
    intro k h
    obtain ⟨v, hv, hvf⟩ := h k (le_refl k) (by omega)
    have hrec := ih (k + 1) (fun j hj1 hj2 => h j (by omega) (by omega))
    simp [start_loop, hv, hvf, hrec, List.range']

/-- C5: the server-start step of `JavaManager.start` is attempted at most
3 times.  Each attempt `k` is a fresh `start_proc` call (`gh_attempts`),
which re-runs `find_ports` against attempt `k`'s own port availability
and re-spawns the server; the indices of the attempts made are all below
3 (no 4th attempt exists); and when the first three attempts all return a
falsy value the loop returns overall failure having made exactly attempts
0, 1 and 2. -/
theorem start_retry_bound
    (avail : Nat → Nat → Bool) (rng : List Nat) (port : Nat)
    (jarfile jar_path osmfile : String) (t0 : Nat → Nat)
    (tr : Nat → List (Nat × String)) :
    (start_loop (gh_attempts avail rng port jarfile jar_path osmfile t0 tr)
        3 0).2.length ≤ 3
    ∧ (∀ j ∈ (start_loop (gh_attempts avail rng port jarfile jar_path
        osmfile t0 tr) 3 0).2, j < 3)
    ∧ ((∀ k, k < 3 → ∃ v,
          (gh_attempts avail rng port jarfile jar_path osmfile t0 tr
            k).result = .ok (some v) ∧ v.truthy = false) →
        start_loop (gh_attempts avail rng port jarfile jar_path osmfile t0
          tr) 3 0 = (.ret false, [0, 1, 2])) := by
  obtain ⟨h1, h2⟩ := start_loop_length_le
    (gh_attempts avail rng port jarfile jar_path osmfile t0 tr) 3 0
  refine ⟨h1, by simpa using h2, fun hfail => ?_⟩
  have h3 := start_loop_all_fail
    (gh_attempts avail rng port jarfile jar_path osmfile t0 tr) 3 0
    (fun j _hj1 hj2 => hfail j (by omega))
  simpa [List.range'] using h3

/-- Witness for C5: with no free port anywhere (every `port_available`
probe reports the port in use), every attempt's `find_ports` comes back
empty-handed, all three attempts fail, and the loop stops after exactly
attempts 0, 1, 2 with overall failure. -/
theorem start_retry_bound_witness :
    start_loop (gh_attempts (fun _ _ => false) [8100] 8080 "web.jar" "gh"
        "map.osm" (fun _ => 0) (fun _ => [])) 3 0
      = (.ret false, [0, 1, 2]) :=
  (start_retry_bound (fun _ _ => false) [8100] 8080 "web.jar" "gh"
      "map.osm" (fun _ => 0) (fun _ => [])).2.2
    (fun _k _hk => ⟨.pbool false, rfl, rfl⟩)

lemma setup_download_data_parts (cfg : GraphConfig) (a b c : Bool) :
    OEv.buildSpawn ∉ (setup_download_data cfg a b c).2.2
    ∧ (∀ k, OEv.startAttempt k ∉ (setup_download_data cfg a b c).2.2)
    ∧ (setup_download_data cfg a b c).2.1.otp_graph_build_time
        = cfg.otp_graph_build_time := by
  obtain ⟨o, g, ob, gb⟩ := cfg
  cases o <;> cases g <;> cases a <;> cases b <;> cases c <;>
    simp [setup_download_data, setup_download_gtfs]

lemma otp_setup_routing_engine_parts (cfg : GraphConfig) (jp a jdk : Bool) :
    (otp_setup_routing_engine cfg jp a jdk).1 = false
    ∧ (otp_setup_routing_engine cfg jp a jdk).2.1 = cfg
    ∧ OEv.buildSpawn ∉ (otp_setup_routing_engine cfg jp a jdk).2.2
    ∧ (∀ k, OEv.startAttempt k
        ∉ (otp_setup_routing_engine cfg jp a jdk).2.2) := by
  cases jp <;> cases a <;> cases jdk <;> simp [otp_setup_routing_engine]

lemma java_start_setup_re_fails (cfg : GraphConfig) (a b c : Bool)
    (su : GraphConfig → Bool × GraphConfig × List OEv)
    (sp : Nat → StartRes) (hsu : ∀ d, (su d).1 = false) :
    (java_start cfg a b c su sp).1 = .ret false
    ∧ (java_start cfg a b c su sp).2.2
        = (if (setup_download_data cfg a b c).1
           then (setup_download_data cfg a b c).2.2 ++ [.registerCleanup]
                  ++ (su (setup_download_data cfg a b c).2.1).2.2
           else (setup_download_data cfg a b c).2.2)
    ∧ (java_start cfg a b c su sp).2.1
        = (if (setup_download_data cfg a b c).1
           then (su (setup_download_data cfg a b c).2.1).2.1
           else (setup_download_data cfg a b c).2.1) := by
  by_cases h1 : (setup_download_data cfg a b c).1 = true
  · simp [java_start, h1, hsu]
  · have h1' : (setup_download_data cfg a b c).1 = false := by simpa using h1
    simp [java_start, h1']

/-- C1 (refuted by the code): `OTPManager.setup_routing_engine` executes
an unconditional `return False` (manager.py line 427) right after its
jar-download section, so the graph-build section behind it (lines
429-442) is dead code.  Consequently, whatever the stage record and the
environment, `OTPManager.start` reports overall failure after data
provisioning: the build command is never spawned, the `graph_build`
marker is never changed, and the server-start step is never reached —
both for workspaces whose record does not mark the graph build complete
(the spec says build then continue) and for workspaces whose record does
(the spec says skip straight to starting the server). -/
theorem otp_graph_build_stage_unreachable (cfg : GraphConfig)
    (osm_ok gtfs_ok require_gtfs jar_present auto_dl jar_dl_ok : Bool)
    (sp : Nat → StartRes) :
    (otp_setup_routing_engine cfg jar_present auto_dl jar_dl_ok).1 = false
    ∧ (otp_start cfg osm_ok gtfs_ok require_gtfs jar_present auto_dl
        jar_dl_ok sp).1 = .ret false
    ∧ OEv.buildSpawn ∉ (otp_start cfg osm_ok gtfs_ok require_gtfs
        jar_present auto_dl jar_dl_ok sp).2.2
    ∧ (∀ k, OEv.startAttempt k ∉ (otp_start cfg osm_ok gtfs_ok
        require_gtfs jar_present auto_dl jar_dl_ok sp).2.2)
    ∧ (otp_start cfg osm_ok gtfs_ok require_gtfs jar_present auto_dl
        jar_dl_ok sp).2.1.otp_graph_build_time
        = cfg.otp_graph_build_time := by
  obtain ⟨hd1, hd2, hd3⟩ :=
    setup_download_data_parts cfg osm_ok gtfs_ok require_gtfs
  obtain ⟨hr1, hr2, hr3, hr4⟩ := otp_setup_routing_engine_parts
    (setup_download_data cfg osm_ok gtfs_ok require_gtfs).2.1
    jar_present auto_dl jar_dl_ok
  obtain ⟨hj1, hj2, hj3⟩ := java_start_setup_re_fails cfg osm_ok gtfs_ok
    require_gtfs
    (fun c => otp_setup_routing_engine c jar_present auto_dl jar_dl_ok) sp
    (fun d => (otp_setup_routing_engine_parts d jar_present auto_dl
      jar_dl_ok).1)
  refine ⟨(otp_setup_routing_engine_parts cfg jar_present auto_dl
    jar_dl_ok).1, hj1, ?_, ?_, ?_⟩
  · rw [show otp_start cfg osm_ok gtfs_ok require_gtfs jar_present auto_dl
        jar_dl_ok sp = java_start cfg osm_ok gtfs_ok require_gtfs
        (fun c => otp_setup_routing_engine c jar_present auto_dl jar_dl_ok)
        sp from rfl, hj2]
    split
    · simp only [List.mem_append, List.mem_singleton, not_or]
      exact ⟨⟨hd1, by simp⟩, hr3⟩
    · exact hd1
  · intro k
    rw [show otp_start cfg osm_ok gtfs_ok require_gtfs jar_present auto_dl
        jar_dl_ok sp = java_start cfg osm_ok gtfs_ok require_gtfs
        (fun c => otp_setup_routing_engine c jar_present auto_dl jar_dl_ok)
        sp from rfl, hj2]
    split
    · simp only [List.mem_append, List.mem_singleton, not_or]
      exact ⟨⟨hd2 k, by simp⟩, hr4 k⟩
    · exact hd2 k
  · rw [show otp_start cfg osm_ok gtfs_ok require_gtfs jar_present auto_dl
        jar_dl_ok sp = java_start cfg osm_ok gtfs_ok require_gtfs
        (fun c => otp_setup_routing_engine c jar_present auto_dl jar_dl_ok)
        sp from rfl, hj3]
    split
    · rw [hr2]; exact hd3
    · exact hd3

/-- C8 (refuted by the code on the OTP path): with every stage in the
persisted record already marked complete (and the jar present), a fresh
`OTPManager.start` run indeed performs no download and no graph build —
but, because `setup_routing_engine` unconditionally returns `False`
(manager.py line 427), it also never reaches the server-start step: the
whole run returns `False` having only registered the cleanup handler,
instead of executing only the start step as the invariant promises. -/
theorem otp_start_all_complete_fails
    (osm_ok gtfs_ok require_gtfs auto_dl jar_dl_ok : Bool)
    (sp : Nat → StartRes) :
    otp_start ⟨true, true, true, true⟩ osm_ok gtfs_ok require_gtfs true
        auto_dl jar_dl_ok sp
      = (.ret false, ⟨true, true, true, true⟩, [.registerCleanup]) := by
  simp [otp_start, java_start, setup_download_data, setup_download_gtfs,
    otp_setup_routing_engine]

/-- C9 (amended): with `dynamically_allocate_ports = False`,
`OTPManager.start_proc` assigns the one-element tuple `(port,)` to
`self.port` and then, while building the server argv, evaluates
`str(ports[1])` with `ports` never bound on this path, so every such call
raises `NameError` before any spawn.  `GraphHopperManager.start_proc`,
by contrast, builds its argv from `self.port` alone and never mentions
`ports`: it also stores the tuple, but `"jetty.port=%d" % port` formats
the one-element tuple as its single element, the server is spawned, and
the call completes without error. -/
theorem static_port_start_behaviour
    (avail : Nat → Bool) (port_range : List Nat) (port : Nat)
    (jar_path graph_name jarfile gh_path osmfile : String) (t0 : Nat)
    (trace : List (Nat × String)) :
    otp_start_proc avail port_range port false jar_path graph_name t0 trace
      = ⟨.error .nameError, some (.tup1 port), none⟩
    ∧ gh_start_proc avail port_range port false jarfile gh_path osmfile t0
        trace
      = ⟨.ok (monitor_proc gh_start_listeners true none t0 true trace).ret,
         some (.tup1 port),
         some (build_gh_startup_args jarfile gh_path osmfile
           (some (.tup1 port)))⟩ :=
  ⟨by simp [otp_start_proc], by simp [gh_start_proc]⟩

/-- C9 counterexample: an error-free start with a statically chosen port
IS possible at the public interface — through
`GraphHopperManager.start_proc`, one of the two `start_proc`
implementations the claim quantifies over: with
`dynamically_allocate_ports = False` it raises nothing, spawns the
server with `jetty.port=8080` in its argv, and returns `True` when the
ready marker appears. -/
theorem gh_static_port_start_succeeds_counterexample :
    (gh_start_proc (fun _ => true) [] 8080 false "gh/web.jar" "gh"
        "graphs/g/map.osm" 0 [(1, "Started server at HTTP :8080")]).result
      = .ok (some (.pbool true))
    ∧ (gh_start_proc (fun _ => true) [] 8080 false "gh/web.jar" "gh"
        "graphs/g/map.osm" 0
        [(1, "Started server at HTTP :8080")]).spawned
      = some ["java", "-jar", "gh/web.jar", "jetty.resourcebase=gh/webapp",
          "config=gh/config-example.properties",
          "datareader.file=graphs/g/map.osm",
          "graph.flag_encoders=car,foot,bike", "jetty.port=8080"] := by
  decide

/-- C7 (amended): `write_config` persists the stage record by reopening
the record file in `"w"` mode and dumping the JSON serialization into it
— an in-place truncate-then-write, with no temporary file and no rename.
The file ends up holding the new record, but mid-operation (between the
truncation and the completed dump) it holds the empty string, which for
non-empty records is neither the previous nor the new complete record:
the write is not atomic, and a crash at that instant leaves a corrupted
(empty or partial) record. -/
theorem write_config_not_atomic (oldRec newRec : String)
    (h1 : oldRec ≠ "") (h2 : newRec ≠ "") :
    "" ∈ write_config_disk_states oldRec newRec
    ∧ ¬ atomic_persist oldRec newRec (write_config_disk_states oldRec
        newRec)
    ∧ (write_config_disk_states oldRec newRec).getLast? = some newRec := by
  refine ⟨by simp [write_config_disk_states], ?_,
    by simp [write_config_disk_states]⟩
  intro h
  rcases h "" (by simp [write_config_disk_states]) with h' | h'
  exacts [h1 h'.symm, h2 h'.symm]

/-- Witness for C7's amended statement, at a concrete pair of records. -/
theorem write_config_not_atomic_witness :
    ("osm_download_time=false" : String) ≠ ""
    ∧ ("osm_download_time=2017-01-01" : String) ≠ ""
    ∧ ¬ atomic_persist "osm_download_time=false"
        "osm_download_time=2017-01-01"
        (write_config_disk_states "osm_download_time=false"
          "osm_download_time=2017-01-01") :=
  ⟨by decide, by decide,
   (write_config_not_atomic "osm_download_time=false"
     "osm_download_time=2017-01-01" (by decide)
     (by decide)).2.1⟩

/-- C7 counterexample: during a `write_config` that replaces one concrete
record by another, the on-disk file passes through the truncated empty
state, which is neither the previous nor the new complete record — so the
persist is not "at every instant either the previous or the new complete
record". -/
theorem write_config_atomicity_counterexample :
    ¬ atomic_persist "osm_download_time=false"
        "osm_download_time=2017-02-02"
        (write_config_disk_states "osm_download_time=false"
          "osm_download_time=2017-02-02") := by
  unfold atomic_persist
  decide
